import Mathlib

/-!
Verification of the node-group stack orchestration core
(`pkg/cfn/manager/nodegroup.go` and the behaviour exercised by
`pkg/cfn/manager/api_test.go`).

The Go code is shallowly embedded: pure tag-resolution functions become Lean
functions over a `Tag` / `Stack` data model; operations that talk to the
external infrastructure service take the outcomes of those external calls as
explicit environment records and additionally return the trace of calls they
issued, so that claims about "no network call is made" are statable.
-/

namespace EksctlCfnManager

/-- A substring test mirroring Go `strings.Contains`. -/
def containsSubstr (s pat : String) : Bool :=
  s.toList.tails.any (fun t => pat.toList.isPrefixOf t)

/-- A suffix test mirroring Go `strings.HasSuffix`. -/
def strHasSuffix (s suffix : String) : Bool :=
  suffix.toList.isSuffixOf s.toList

/-- Go `%q` formatting of a string, modelled as plain double-quoting
(escaping of special characters inside the name is not modelled). -/
def quoteGo (s : String) : String := "\"" ++ s ++ "\""

/-- The apostrophe character, used to spell Go error messages. -/
def apoChar : Char := Char.ofNat 39

/-- The apostrophe as a one-character string. -/
def apoStr : String := String.singleton apoChar

/-! ## Data model: tags and stack views -/

/-- A CloudFormation tag (`cfn.Tag`): a key/value pair. -/
structure Tag where
  key : String
  value : String
deriving DecidableEq, Repr

/-- The slice of a CloudFormation stack the manager code reads:
its name, its status string and its tag list. -/
structure Stack where
  stackName : String
  stackStatus : String
  tags : List Tag
deriving DecidableEq, Repr

/-! Tag keys from `pkg/apis/eksctl.io/v1alpha5` (consumed by the sources;
values as used throughout eksctl — `ClusterNameTag` is also visible verbatim
in `api_test.go`). -/

def NodeGroupNameTag : String := "alpha.eksctl.io/nodegroup-name"

def OldNodeGroupNameTag : String := "eksctl.io/v1alpha2/nodegroup-name"

def OldNodeGroupIDTag : String := "eksctl.cluster.k8s.io/v1alpha1/nodegroup-id"

def NodeGroupTypeTag : String := "alpha.eksctl.io/nodegroup-type"

def ClusterNameTag : String := "alpha.eksctl.io/cluster-name"

/-- `api.NodeGroupTypeManaged`. -/
def NodeGroupTypeManaged : String := "managed"

/-- `api.NodeGroupTypeUnmanaged`. -/
def NodeGroupTypeUnmanaged : String := "unmanaged"

/-- `cfn.StackStatusDeleteComplete`. -/
def StackStatusDeleteComplete : String := "DELETE_COMPLETE"

/-- `cfn.StackStatusDeleteFailed`. -/
def StackStatusDeleteFailed : String := "DELETE_FAILED"

/-- Whether a tag key is one of the three name-identifying keys matched by the
`switch` in `GetNodegroupTagName`. -/
def isNodeGroupNameKey (k : String) : Bool :=
  k = NodeGroupNameTag || k = OldNodeGroupNameTag || k = OldNodeGroupIDTag

/-! ## StackMetadataResolver (pure functions of `nodegroup.go`) -/

/-- `GetNodegroupTagName` (nodegroup.go:355): scan the tag list in order and
return the value of the first tag whose key is name-identifying, else `""`. -/
def GetNodegroupTagName : List Tag → String
  | [] => ""
  | t :: ts => if isNodeGroupNameKey t.key then t.value else GetNodegroupTagName ts

/-- The `for` loop of `GetNodeGroupType` (nodegroup.go:312): the last tag with
the type key overwrites `nodeGroupType`, which starts out as the empty string. -/
def typeTagFold (tags : List Tag) : String :=
  tags.foldl (fun acc t => if t.key = NodeGroupTypeTag then t.value else acc) ""

/-- `GetNodeGroupType` (nodegroup.go:305): error when no nodegroup name
resolves from the tags; otherwise the last type-tag value, defaulting the
empty string to `unmanaged`. -/
def GetNodeGroupType (tags : List Tag) : Except String String :=
  if GetNodegroupTagName tags = "" then
    .error "failed to find the nodegroup name tag"
  else
    let t := typeTagFold tags
    .ok (if t = "" then NodeGroupTypeUnmanaged else t)

/-- `GetNodeGroupName` (nodegroup.go:341): tag-resolved name first, then the
stack-name suffix heuristics, else the empty string. -/
def GetNodeGroupName (s : Stack) : String :=
  if GetNodegroupTagName s.tags ≠ "" then GetNodegroupTagName s.tags
  else if strHasSuffix s.stackName "-nodegroup-0" then "legacy-nodegroup-0"
  else if strHasSuffix s.stackName "-DefaultNodeGroup" then "legacy-default"
  else ""

/-- The value of the last tag carrying the type key, if any
(a reference reading of the overwrite loop, used to state claims). -/
def lastTypeTagValue (tags : List Tag) : Option String :=
  tags.foldl (fun acc t => if t.key = NodeGroupTypeTag then some t.value else acc) none

/-! ## DescribeNodeGroupStacks (nodegroup.go:122) -/

/-- Environment for `DescribeNodeGroupStacks`: the outcome of the
`DescribeStacks` query against the external service. -/
structure DescribeEnv where
  describeStacks : Except String (List Stack)

/-- The filtering loop of `DescribeNodeGroupStacks` (nodegroup.go:134):
skip delete-complete entries, skip (and only log) delete-failed entries,
keep a stack when its node-group name resolves to a non-empty value. -/
def filterNodeGroupStacks : List Stack → List Stack
  | [] => []
  | s :: rest =>
    if s.stackStatus = StackStatusDeleteComplete then filterNodeGroupStacks rest
    else if s.stackStatus = StackStatusDeleteFailed then filterNodeGroupStacks rest
    else if GetNodeGroupName s ≠ "" then s :: filterNodeGroupStacks rest
    else filterNodeGroupStacks rest

/-- `DescribeNodeGroupStacks` (nodegroup.go:123). -/
def DescribeNodeGroupStacks (env : DescribeEnv) : Except String (List Stack) :=
  match env.describeStacks with
  | .error e => .error e
  | .ok stackList => if stackList.isEmpty then .ok [] else .ok (filterNodeGroupStacks stackList)

/-! ## Autoscaling-group name resolution (nodegroup.go:198/225/239) -/

/-- Environment for the ASG-name queries: the outcome of the
`DescribeNodegroup` EKS call (error, or the optional `Resources` block with
its autoscaling-group names) and of the `DescribeStackResource` call. -/
structure ASGEnv where
  describeNodegroup : Except String (Option (List String))
  describeStackResource : Except String String

/-- `getManagedNodeGroupAutoScalingGroupName` (nodegroup.go:239): on a
`DescribeNodegroup` failure the Go code logs a warning and returns
`"", nil` — the failure is swallowed; otherwise the comma-join of the
ASG names (empty when `Resources` is nil). -/
def getManagedNodeGroupAutoScalingGroupName (env : ASGEnv) (_s : Stack) :
    Except String String :=
  match env.describeNodegroup with
  | .error _ => .ok ""
  | .ok none => .ok (String.intercalate "," [])
  | .ok (some asgs) => .ok (String.intercalate "," asgs)

/-- `GetUnmanagedNodeGroupAutoScalingGroupName` (nodegroup.go:225). -/
def GetUnmanagedNodeGroupAutoScalingGroupName (env : ASGEnv) (_s : Stack) :
    Except String String :=
  env.describeStackResource

/-- The error message of the `default` branch of `GetAutoScalingGroupName`
(nodegroup.go:220). -/
def unexpectedTypeMessage (t : String) : String :=
  "cant get autoscaling group name, because unexpected nodegroup type : " ++ quoteGo t

/-- `GetAutoScalingGroupName` (nodegroup.go:198): dispatch on the resolved
node-group type; an unexpected type value is rejected here. -/
def GetAutoScalingGroupName (env : ASGEnv) (s : Stack) : Except String String :=
  match GetNodeGroupType s.tags with
  | .error e => .error e
  | .ok t =>
    if t = NodeGroupTypeManaged then getManagedNodeGroupAutoScalingGroupName env s
    else if t = NodeGroupTypeUnmanaged ∨ t = "" then
      GetUnmanagedNodeGroupAutoScalingGroupName env s
    else .error (unexpectedTypeMessage t)

/-! ## Tag-propagation records and network calls -/

/-- A tag-propagation record (`autoscaling.Tag`): built per (ASG name × tag)
pair with resource type `auto-scaling-group` and propagate-at-launch false. -/
structure TagRecord where
  resourceId : String
  resourceType : String
  key : String
  value : String
  propagateAtLaunch : Bool
deriving DecidableEq, Repr

/-- A network call issued by a node-group operation. -/
inductive NetworkCall where
  | describeNodegroup
  | createOrUpdateTags (tags : List TagRecord)
deriving DecidableEq, Repr

/-- The single value an asynchronous task writes to its result channel:
nil on success, or an error message. -/
inductive ChannelResult where
  | nil
  | fail (msg : String)
deriving DecidableEq, Repr

/-- One (ASG × tag) record of the propagation input, as built by the loops of
`propagateManagedNodeGroupTagsToASGTask` (nodegroup.go:99). -/
def mkASGTag (asgName : String) (kv : String × String) : TagRecord :=
  { resourceId := asgName
    resourceType := "auto-scaling-group"
    key := kv.1
    value := kv.2
    propagateAtLaunch := false }

/-- Build one record per (ASG name × tag) pair. -/
def buildASGTagRecords (asgNames : List String) (tags : List (String × String)) :
    List TagRecord :=
  asgNames.flatMap (fun a => tags.map (mkASGTag a))

/-! ## `propagateManagedNodeGroupTagsToASGTask` (nodegroup.go:79), as in src -/

/-- Environment for the propagation task of nodegroup.go: the outcome of its
`DescribeNodegroup` call (error, or the optional `Resources` block with the
ASG names) and of its single `CreateOrUpdateTags` call. -/
structure TaskEnv where
  describeNodegroup : Except String (Option (List String))
  createOrUpdateTags : Option String
deriving Repr

/-- What the task did: its synchronous return value, the value it wrote to the
error channel (if any), and the network calls it issued. -/
structure TaskOutcome where
  syncResult : Except String Unit
  delivered : Option ChannelResult
  calls : List NetworkCall
deriving Repr

/-- The `errors.Wrapf` message of nodegroup.go:91. -/
def describeWrapMessage (ngName cause : String) : String :=
  "couldn" ++ apoStr ++ "t get managed nodegroup details for nodegroup " ++
    quoteGo ngName ++ ": " ++ cause

/-- The `errors.Wrapf` message of nodegroup.go:114. -/
def tagWrapMessage (ngName cause : String) : String :=
  "creating or updating asg tags for managed nodegroup " ++ quoteGo ngName ++ ": " ++ cause

/-- `propagateManagedNodeGroupTagsToASGTask` (nodegroup.go:79): as written in
src the task returns describe/tagging failures synchronously (wrapped), skips
silently when propagation is disabled, issues at most one unbatched
`CreateOrUpdateTags` call, and only writes to the channel (a nil) on success. -/
def propagateManagedNodeGroupTagsToASGTask (disableProp : Option Bool)
    (ngName : String) (ngTags : List (String × String)) (env : TaskEnv) :
    TaskOutcome :=
  if disableProp = some true then
    { syncResult := .ok (), delivered := none, calls := [] }
  else
    match env.describeNodegroup with
    | .error e =>
      { syncResult := .error (describeWrapMessage ngName e)
        delivered := none
        calls := [.describeNodegroup] }
    | .ok none =>
      { syncResult := .ok (), delivered := some .nil, calls := [.describeNodegroup] }
    | .ok (some asgs) =>
      let asgTags := buildASGTagRecords asgs ngTags
      match env.createOrUpdateTags with
      | some e =>
        { syncResult := .error (tagWrapMessage ngName e)
          delivered := none
          calls := [.describeNodegroup, .createOrUpdateTags asgTags] }
      | none =>
        { syncResult := .ok ()
          delivered := some .nil
          calls := [.describeNodegroup, .createOrUpdateTags asgTags] }

/-! ## `createManagedNodeGroupTask` (nodegroup.go:60) -/

/-- The steps of `createManagedNodeGroupTask` that can be observed. -/
inductive MNGAction where
  | describeClusterStack
  | buildResourceSet
  | createStack
deriving DecidableEq, Repr

/-- Environment for `createManagedNodeGroupTask`: the outcome of
`DescribeClusterStack` (an error, or the optional owned cluster stack), of the
resource-set construction (`AddAllResources`) and of the `CreateStack`
submission. -/
structure CreateMNGEnv where
  describeClusterStack : Except String (Option Stack)
  addAllResources : Option String
  createStack : Option String

/-- The configuration-conflict message of nodegroup.go:67. -/
def ipv6ConflictMessage : String :=
  "managed nodegroups cannot be created on IPv6 unowned clusters"

/-- `createManagedNodeGroupTask` (nodegroup.go:60): describe the cluster
stack; when it is absent and IPv6 is enabled, refuse before building the
resource set; otherwise build the resource set and submit the stack. -/
def createManagedNodeGroupTask (env : CreateMNGEnv) (ipv6Enabled : Bool) :
    Except String Unit × List MNGAction :=
  match env.describeClusterStack with
  | .error e => (.error e, [.describeClusterStack])
  | .ok cluster =>
    if cluster.isNone && ipv6Enabled then
      (.error ipv6ConflictMessage, [.describeClusterStack])
    else
      match env.addAllResources with
      | some e => (.error e, [.describeClusterStack, .buildResourceSet])
      | none =>
        match env.createStack with
        | some e => (.error e, [.describeClusterStack, .buildResourceSet, .createStack])
        | none => (.ok (), [.describeClusterStack, .buildResourceSet, .createStack])

/-! ## Spec-modelled tag propagation: `PropagateManagedNodeGroupTagsToASG` -/

/-- Modelled from the spec: the quota constant `MaximumTagNumber` of
`pkg/cfn/builder` is missing from the sources (only `api_test.go` references
it); the spec fixes it as "maximum tags per resource (e.g. 50)". -/
def MaximumTagNumber : Nat := 50

/-- Modelled from the spec: the quota constant `MaximumCreatedTagNumberPerCall`
of `pkg/cfn/builder` is missing from the sources (only `api_test.go`
references it); the spec fixes it as "maximum tags per propagation call
(e.g. 25)". -/
def MaximumCreatedTagNumberPerCall : Nat := 25

/-- The chunking loop with explicit fuel: peel `m` records at a time.
The fuel is an upper bound on the number of records, which suffices for
any positive `m`. -/
def chunkGo (m : Nat) : Nat → List TagRecord → List (List TagRecord)
  | _, [] => []
  | 0, _ :: _ => []
  | fuel + 1, a :: rest => (a :: rest).take m :: chunkGo m fuel ((a :: rest).drop m)

/-- Modelled from the spec: the TagBatcher of §4.4 (missing from the sources),
partitioning an ordered record sequence into chunks of at most `m` records
whose in-order concatenation reproduces the input. -/
def chunkTagRecords (m : Nat) (l : List TagRecord) : List (List TagRecord) :=
  chunkGo m l.length l

/-- Modelled from the spec: the per-batch submission loop of §4.2(c)-(d).
`api i` is the outcome of the `i`-th `CreateOrUpdateTags` call; a failing
batch aborts the remaining ones and its error is the delivered value, while
the batches already attempted (the failing one included) stay issued. -/
def submitBatches (api : Nat → Option String) :
    Nat → List (List TagRecord) → List (List TagRecord) × ChannelResult
  | _, [] => ([], .nil)
  | i, b :: bs =>
    match api i with
    | some e => ([b], .fail e)
    | none =>
      let r := submitBatches api (i + 1) bs
      (b :: r.1, r.2)

/-- The quota-error message delivered when the tag map is oversized; the spec
and its tests fix only that it contains "maximum amount for asg". -/
def quotaErrorMessage : String :=
  "unable to propagate tags: number of tags exceeds the maximum amount for asg"

/-- The overall outcome of the asynchronous propagation operation: the
synchronous return value (`none` = nil), the single value written to the
result channel, and the tagging calls issued (one list of records per
`CreateOrUpdateTags` call). -/
structure PropagationOutcome where
  syncResult : Option String
  delivered : ChannelResult
  calls : List (List TagRecord)
deriving Repr

/-- Modelled from the spec: `PropagateManagedNodeGroupTagsToASG` of
`pkg/cfn/manager` is missing from the sources — only its tests in
`api_test.go` call it. Following §4.2: always return nil synchronously;
skip (delivering nil, no network calls) when propagation is disabled for the
node group; reject with a quota error on the channel, before any network
call, when the tag map exceeds `MaximumTagNumber`; otherwise build one record
per (ASG name × tag) pair, partition them into batches of at most
`MaximumCreatedTagNumberPerCall`, submit one tagging call per batch, and
deliver the first batch failure or nil on the channel. -/
def PropagateManagedNodeGroupTagsToASG (disabled : Bool) (tags : List (String × String))
    (asgNames : List String) (api : Nat → Option String) : PropagationOutcome :=
  if disabled then
    { syncResult := none, delivered := .nil, calls := [] }
  else if MaximumTagNumber < tags.length then
    { syncResult := none, delivered := .fail quotaErrorMessage, calls := [] }
  else
    let batches := chunkTagRecords MaximumCreatedTagNumberPerCall
      (buildASGTagRecords asgNames tags)
    let r := submitBatches api 0 batches
    { syncResult := none, delivered := r.2, calls := r.1 }

/-! ## Spec-modelled `UpdateStack` -/

/-- The calls `UpdateStack` can issue against the external service. -/
inductive CFNCall where
  | describeStacks
  | createChangeSet
  | waitChangeSet
  | describeChangeSet
  | executeChangeSet
  | waitStackUpdate
deriving DecidableEq, Repr

/-- `cfn.ChangeSetStatusFailed`. -/
def ChangeSetStatusFailed : String := "FAILED"

/-- `cfn.ChangeSetStatusCreateComplete`. -/
def ChangeSetStatusCreateComplete : String := "CREATE_COMPLETE"

/-- The no-op status-reason substring recognised by the update state machine
("didn't contain changes"). -/
def noChangesNeedle : String := "didn" ++ apoStr ++ "t contain changes"

/-- The inputs of `UpdateStack` the state machine reads: an optional
already-resolved stack reference, the stack name, and the wait flag. -/
structure UpdateStackOptions where
  stack : Option Stack
  stackName : String
  wait : Bool

/-- Environment for `UpdateStack`: outcomes of the describe-by-name query, of
the change-set creation, the change set's terminal status and status reason,
and the outcomes of the execute call and of the final stack wait. -/
structure UpdateStackEnv where
  describeStack : Except String (Option Stack)
  createChangeSet : Option String
  changeSetStatus : String
  changeSetStatusReason : String
  executeChangeSet : Option String
  waitUpdate : Option String

/-- Step 1 of the update state machine: use the provided stack reference if
present, else describe by name; not-found is a terminal error. -/
def resolveUpdateTarget (opts : UpdateStackOptions) (env : UpdateStackEnv) :
    Except String Stack × List CFNCall :=
  match opts.stack with
  | some s => (.ok s, [])
  | none =>
    match env.describeStack with
    | .error e => (.error e, [.describeStacks])
    | .ok none =>
      (.error ("no CloudFormation stack found for " ++ opts.stackName), [.describeStacks])
    | .ok (some s) => (.ok s, [.describeStacks])

/-- Modelled from the spec: `UpdateStack` of `pkg/cfn/manager` is missing from
the sources — only its tests in `api_test.go` drive it. Following §4.1:
resolve the target stack, create a change set, wait for its terminal state;
a failed change set whose status reason contains the no-op substring is
success without executing; a succeeded change set is executed, and the final
stack wait is performed only when `wait` is true. -/
def UpdateStack (opts : UpdateStackOptions) (env : UpdateStackEnv) :
    Except String Unit × List CFNCall :=
  match resolveUpdateTarget opts env with
  | (.error e, calls) => (.error e, calls)
  | (.ok _, calls0) =>
    match env.createChangeSet with
    | some e => (.error e, calls0 ++ [.createChangeSet])
    | none =>
      let calls1 := calls0 ++ [.createChangeSet, .waitChangeSet]
      if env.changeSetStatus = ChangeSetStatusFailed then
        if containsSubstr env.changeSetStatusReason noChangesNeedle then
          (.ok (), calls1 ++ [.describeChangeSet])
        else
          (.error env.changeSetStatusReason, calls1 ++ [.describeChangeSet])
      else if env.changeSetStatus = ChangeSetStatusCreateComplete then
        match env.executeChangeSet with
        | some e => (.error e, calls1 ++ [.executeChangeSet])
        | none =>
          if opts.wait then
            match env.waitUpdate with
            | some e => (.error e, calls1 ++ [.executeChangeSet, .waitStackUpdate])
            | none => (.ok (), calls1 ++ [.executeChangeSet, .waitStackUpdate])
          else (.ok (), calls1 ++ [.executeChangeSet])
      else
        (.error ("unexpected changeset status: " ++ env.changeSetStatus), calls1)

/-! ## Helper lemmas -/

/-- The name-tag scan is the value of the first name-identifying tag in list
order, defaulting to the empty string. -/
theorem getNodegroupTagName_eq_find (tags : List Tag) :
    GetNodegroupTagName tags =
      ((tags.find? fun t => isNodeGroupNameKey t.key).map Tag.value).getD "" := by
  induction tags with
  | nil => rfl
  | cons t ts ih =>
    cases h : isNodeGroupNameKey t.key with
    | true => simp [GetNodegroupTagName, List.find?_cons, h]
    | false => simpa [GetNodegroupTagName, List.find?_cons, h] using ih

/-- The string-valued overwrite loop of `GetNodeGroupType` computes the last
type-tag value, defaulting to the initial accumulator. -/
theorem foldl_typeTag_getD (tags : List Tag) :
    ∀ (a : Option String) (i : String),
      (tags.foldl (fun acc t => if t.key = NodeGroupTypeTag then some t.value else acc)
          a).getD i
        = tags.foldl (fun acc t => if t.key = NodeGroupTypeTag then t.value else acc)
            (a.getD i) := by
  induction tags with
  | nil => intro a i; rfl
  | cons t ts ih =>
    intro a i
    simp only [List.foldl_cons]
    by_cases h : t.key = NodeGroupTypeTag
    · rw [if_pos h, if_pos h, ih]; rfl
    · rw [if_neg h, if_neg h, ih]

/-- `typeTagFold` in terms of `lastTypeTagValue`. -/
theorem typeTagFold_eq_lastTypeTagValue (tags : List Tag) :
    typeTagFold tags = (lastTypeTagValue tags).getD "" := by
  rw [typeTagFold, lastTypeTagValue, foldl_typeTag_getD]; rfl

/-- Membership in the node-group stack filter. -/
theorem mem_filterNodeGroupStacks (s : Stack) : ∀ l : List Stack,
    s ∈ filterNodeGroupStacks l ↔
      s ∈ l ∧ s.stackStatus ≠ StackStatusDeleteComplete ∧
        s.stackStatus ≠ StackStatusDeleteFailed ∧ GetNodeGroupName s ≠ "" := by
  intro l
  induction l with
  | nil => simp [filterNodeGroupStacks]
  | cons a rest ih =>
    simp only [filterNodeGroupStacks]
    split_ifs with h1 h2 h3
    · rw [ih, List.mem_cons]
      constructor
      · rintro ⟨hm, hp⟩; exact ⟨Or.inr hm, hp⟩
      · rintro ⟨hm | hm, hp⟩
        · subst hm; exact absurd h1 hp.1
        · exact ⟨hm, hp⟩
    · rw [ih, List.mem_cons]
      constructor
      · rintro ⟨hm, hp⟩; exact ⟨Or.inr hm, hp⟩
      · rintro ⟨hm | hm, hp⟩
        · subst hm; exact absurd h2 hp.2.1
        · exact ⟨hm, hp⟩
    · rw [List.mem_cons, ih, List.mem_cons]
      constructor
      · rintro (hm | ⟨hm, hp⟩)
        · subst hm; exact ⟨Or.inl rfl, h1, h2, h3⟩
        · exact ⟨Or.inr hm, hp⟩
      · rintro ⟨hm | hm, hp⟩
        · subst hm; exact Or.inl rfl
        · exact Or.inr ⟨hm, hp⟩
    · rw [ih, List.mem_cons]
      push_neg at h3
      constructor
      · rintro ⟨hm, hp⟩; exact ⟨Or.inr hm, hp⟩
      · rintro ⟨hm | hm, hp⟩
        · subst hm; exact absurd h3 hp.2.2
        · exact ⟨hm, hp⟩

/-- Submitting batches against an always-succeeding tagging API issues every
batch and delivers nil. -/
theorem submitBatches_success :
    ∀ (i : Nat) (bs : List (List TagRecord)),
      submitBatches (fun _ => none) i bs = (bs, .nil) := by
  intro i bs
  induction bs generalizing i with
  | nil => rfl
  | cons b rest ih => simp [submitBatches, ih]

/-- The in-order concatenation of the chunks reproduces the input. -/
theorem chunkGo_flatten (m : Nat) (hm : 0 < m) :
    ∀ (fuel : Nat) (l : List TagRecord), l.length ≤ fuel →
      (chunkGo m fuel l).flatten = l := by
  intro fuel
  induction fuel with
  | zero =>
    intro l hl
    cases l with
    | nil => rfl
    | cons a rest => simp at hl
  | succ n ih =>
    intro l hl
    cases l with
    | nil => rfl
    | cons a rest =>
      show ((a :: rest).take m :: chunkGo m n ((a :: rest).drop m)).flatten = a :: rest
      rw [List.flatten_cons, ih ((a :: rest).drop m) ?_, List.take_append_drop]
      have hlen : (a :: rest).length ≤ n + 1 := hl
      rw [List.length_drop]
      simp only [List.length_cons] at hlen ⊢
      omega

/-- Every chunk holds at most `m` records. -/
theorem chunkGo_sizes (m : Nat) :
    ∀ (fuel : Nat) (l : List TagRecord) (c : List TagRecord),
      c ∈ chunkGo m fuel l → c.length ≤ m := by
  intro fuel
  induction fuel with
  | zero =>
    intro l c hc
    cases l with
    | nil => simp [chunkGo] at hc
    | cons a rest => simp [chunkGo] at hc
  | succ n ih =>
    intro l c hc
    cases l with
    | nil => simp [chunkGo] at hc
    | cons a rest =>
      rcases List.mem_cons.mp hc with h | h
      · subst h
        rw [List.length_take]
        exact min_le_left _ _
      · exact ih _ _ h

/-! ## Claim C4 -/

/-- Tag list with a name-identifying tag and an explicit `unmanaged` type tag:
exactly what `createNodeGroupTask` writes on every unmanaged node group. -/
def tagsC4 : List Tag :=
  [{ key := NodeGroupNameTag, value := "mng-1" },
   { key := NodeGroupTypeTag, value := NodeGroupTypeUnmanaged }]

/-- C4 counterexample: a tag list with a name-identifying tag and a type tag
carrying the explicit value `unmanaged` makes `GetNodeGroupType` return
Unmanaged even though a type tag IS present, refuting the claimed equivalence
"returns Unmanaged if and only if no type tag is present". -/
theorem getNodeGroupType_typeTagPresent_unmanaged_cex :
    (tagsC4.any fun t => isNodeGroupNameKey t.key) = true
    ∧ (tagsC4.any fun t => t.key == NodeGroupTypeTag) = true
    ∧ GetNodeGroupType tagsC4 = .ok NodeGroupTypeUnmanaged := by
  refine ⟨by decide, by decide, rfl⟩

/-- C4 (amended): `GetNodeGroupType` errors iff the name-tag scan resolves to
the empty string (no name-identifying key present, or the first one present
carrying an empty value); when a non-empty name resolves, it returns Unmanaged
iff the last type tag is absent or carries the value `""` or `"unmanaged"`. -/
theorem getNodeGroupType_characterised (tags : List Tag) :
    ((∃ e, GetNodeGroupType tags = .error e) ↔ GetNodegroupTagName tags = "")
    ∧ (GetNodegroupTagName tags ≠ "" →
        (GetNodeGroupType tags = .ok NodeGroupTypeUnmanaged ↔
          (lastTypeTagValue tags = none ∨ lastTypeTagValue tags = some "" ∨
            lastTypeTagValue tags = some NodeGroupTypeUnmanaged))) := by
  constructor
  · constructor
    · rintro ⟨e, he⟩
      by_contra h
      rw [GetNodeGroupType, if_neg h] at he
      exact Except.noConfusion he
    · intro h
      exact ⟨_, by rw [GetNodeGroupType, if_pos h]⟩
  · intro h
    rw [GetNodeGroupType, if_neg h]
    have hfold := typeTagFold_eq_lastTypeTagValue tags
    cases hl : lastTypeTagValue tags with
    | none =>
      rw [hl] at hfold
      simp only [Option.getD_none] at hfold
      simp [hfold]
    | some v =>
      rw [hl] at hfold
      simp only [Option.getD_some] at hfold
      by_cases hv : v = ""
      · subst hv
        simp [hfold]
      · simp only [hfold, if_neg hv, Except.ok.injEq, Option.some.injEq]
        constructor
        · intro hu; exact Or.inr (Or.inr hu)
        · rintro (hc | hc | hc)
          · exact Option.noConfusion hc
          · exact absurd hc hv
          · exact hc

/-- C4 witness: on a tag list whose first name tag has an empty value, the
name resolves empty and `GetNodeGroupType` errors; on one resolving to a
non-empty name with no type tag, it returns Unmanaged. -/
theorem getNodeGroupType_characterised_witness :
    GetNodegroupTagName [{ key := NodeGroupNameTag, value := "web" }] ≠ ""
    ∧ GetNodeGroupType [{ key := NodeGroupNameTag, value := "web" }]
        = .ok NodeGroupTypeUnmanaged :=
  ⟨by decide,
    ((getNodeGroupType_characterised
        [{ key := NodeGroupNameTag, value := "web" }]).2 (by decide)).mpr
      (Or.inl (by decide))⟩

/-! ## Claim C10 -/

/-- Tag list with a name-identifying key carrying an empty value and a
non-empty custom type value. -/
def tagsC10 : List Tag :=
  [{ key := NodeGroupNameTag, value := "" },
   { key := NodeGroupTypeTag, value := "custom-type" }]

/-- C10 counterexample: this tag list contains a name-identifying tag and a
type tag with the non-empty value `custom-type`, yet `GetNodeGroupType`
errors instead of returning `custom-type` verbatim, because the
name-identifying tag carries an empty value. -/
theorem getNodeGroupType_verbatim_cex :
    (tagsC10.any fun t => isNodeGroupNameKey t.key) = true
    ∧ (tagsC10.any fun t => t.key == NodeGroupTypeTag && t.value == "custom-type") = true
    ∧ GetNodeGroupType tagsC10 = .error "failed to find the nodegroup name tag" := by
  refine ⟨by decide, by decide, rfl⟩

/-- C10 (amended): when the name-tag scan resolves to a non-empty name and
the last type tag carries a non-empty value `v`, `GetNodeGroupType` returns
`v` verbatim with no error, even when `v` is neither the managed nor the
unmanaged enumeration value — such a `v` is only rejected later by
`GetAutoScalingGroupName`; a last type tag whose value is the empty string
yields Unmanaged. -/
theorem getNodeGroupType_verbatim (tags : List Tag) (v : String) (env : ASGEnv)
    (s : Stack) :
    (GetNodegroupTagName tags ≠ "" → lastTypeTagValue tags = some v → v ≠ "" →
      GetNodeGroupType tags = .ok v)
    ∧ (GetNodegroupTagName tags ≠ "" → lastTypeTagValue tags = some "" →
      GetNodeGroupType tags = .ok NodeGroupTypeUnmanaged)
    ∧ (GetNodeGroupType s.tags = .ok v → v ≠ NodeGroupTypeManaged →
      v ≠ NodeGroupTypeUnmanaged → v ≠ "" →
      GetAutoScalingGroupName env s = .error (unexpectedTypeMessage v)) := by
  refine ⟨?_, ?_, ?_⟩
  · intro h hl hv
    rw [GetNodeGroupType, if_neg h]
    have hfold := typeTagFold_eq_lastTypeTagValue tags
    rw [hl] at hfold
    simp only [Option.getD_some] at hfold
    simp only [hfold, if_neg hv]
  · intro h hl
    rw [GetNodeGroupType, if_neg h]
    have hfold := typeTagFold_eq_lastTypeTagValue tags
    rw [hl] at hfold
    simp only [Option.getD_some] at hfold
    simp [hfold]
  · intro hok hm hu hne
    rw [GetAutoScalingGroupName, hok]
    dsimp only
    rw [if_neg hm, if_neg ?_]
    rintro (hc | hc)
    · exact hu hc
    · exact hne hc

/-- C10 witness: a resolving tag list whose type tag holds `custom-type`
yields `.ok "custom-type"`, and a stack carrying those tags is rejected by
`GetAutoScalingGroupName` with the unexpected-type error. -/
theorem getNodeGroupType_verbatim_witness :
    GetNodeGroupType
        [{ key := NodeGroupNameTag, value := "mng" },
         { key := NodeGroupTypeTag, value := "custom-type" }] = .ok "custom-type"
    ∧ GetAutoScalingGroupName ⟨.ok none, .ok "physical-id"⟩
        { stackName := "eksctl-c-nodegroup-mng"
          stackStatus := "CREATE_COMPLETE"
          tags := [{ key := NodeGroupNameTag, value := "mng" },
                   { key := NodeGroupTypeTag, value := "custom-type" }] }
        = .error (unexpectedTypeMessage "custom-type") := by
  constructor
  · exact (getNodeGroupType_verbatim
      [{ key := NodeGroupNameTag, value := "mng" },
       { key := NodeGroupTypeTag, value := "custom-type" }] "custom-type"
      ⟨.ok none, .ok "physical-id"⟩
      { stackName := "eksctl-c-nodegroup-mng"
        stackStatus := "CREATE_COMPLETE"
        tags := [{ key := NodeGroupNameTag, value := "mng" },
                 { key := NodeGroupTypeTag, value := "custom-type" }] }).1
      (by decide) (by decide) (by decide)
  · exact (getNodeGroupType_verbatim
      [{ key := NodeGroupNameTag, value := "mng" },
       { key := NodeGroupTypeTag, value := "custom-type" }] "custom-type"
      ⟨.ok none, .ok "physical-id"⟩
      { stackName := "eksctl-c-nodegroup-mng"
        stackStatus := "CREATE_COMPLETE"
        tags := [{ key := NodeGroupNameTag, value := "mng" },
                 { key := NodeGroupTypeTag, value := "custom-type" }] }).2.2
      rfl (by decide) (by decide) (by decide)

/-! ## Claim C5 -/

/-- A stack whose tag list carries the legacy-id tag before the current-name
tag. -/
def stackC5 : Stack :=
  { stackName := "eksctl-c-nodegroup-n"
    stackStatus := "CREATE_COMPLETE"
    tags := [{ key := OldNodeGroupIDTag, value := "legacy-id-value" },
             { key := NodeGroupNameTag, value := "current-value" }] }

/-- C5 counterexample: on a stack carrying both a legacy-id tag (first in list
order) and a current-name tag, `GetNodeGroupName` returns the legacy-id value,
not the current-name value the claimed key precedence (current → legacy name →
legacy id) would select. -/
theorem getNodeGroupName_keyPrecedence_cex :
    (stackC5.tags.any fun t =>
      t.key == NodeGroupNameTag && t.value == "current-value") = true
    ∧ GetNodeGroupName stackC5 = "legacy-id-value"
    ∧ "legacy-id-value" ≠ "current-value" := by
  refine ⟨by decide, rfl, by decide⟩

/-- C5 (amended): `GetNodeGroupName` resolves to the value of the first tag in
tag-list order whose key is any of the three name-identifying keys — there is
no precedence among the keys — provided that value is non-empty; when no such
tag exists or the first one carries an empty value, the stack-name suffix
heuristics apply (`-nodegroup-0` ⇒ "legacy-nodegroup-0", `-DefaultNodeGroup`
⇒ "legacy-default"), and otherwise the empty string is returned. -/
theorem getNodeGroupName_resolution (s : Stack) (t : Tag) :
    ((s.tags.find? fun x => isNodeGroupNameKey x.key) = some t → t.value ≠ "" →
      GetNodeGroupName s = t.value)
    ∧ (GetNodegroupTagName s.tags = "" →
      strHasSuffix s.stackName "-nodegroup-0" = true →
      GetNodeGroupName s = "legacy-nodegroup-0")
    ∧ (GetNodegroupTagName s.tags = "" →
      strHasSuffix s.stackName "-nodegroup-0" = false →
      strHasSuffix s.stackName "-DefaultNodeGroup" = true →
      GetNodeGroupName s = "legacy-default")
    ∧ (GetNodegroupTagName s.tags = "" →
      strHasSuffix s.stackName "-nodegroup-0" = false →
      strHasSuffix s.stackName "-DefaultNodeGroup" = false →
      GetNodeGroupName s = "") := by
  refine ⟨?_, ?_, ?_, ?_⟩
  · intro hf hv
    have hname : GetNodegroupTagName s.tags = t.value := by
      rw [getNodegroupTagName_eq_find, hf]
      rfl
    rw [GetNodeGroupName, hname, if_pos hv]
  · intro h0 h1
    rw [GetNodeGroupName, h0, if_neg (by simp), h1, if_pos rfl]
  · intro h0 h1 h2
    rw [GetNodeGroupName, h0, if_neg (by simp), h1, h2]
    rfl
  · intro h0 h1 h2
    rw [GetNodeGroupName, h0, if_neg (by simp), h1, h2]
    rfl

/-- C5 witness: a non-empty current-name tag wins, and a bare stack named with
the `-nodegroup-0` suffix resolves to the fixed legacy identifier. -/
theorem getNodeGroupName_resolution_witness :
    GetNodeGroupName
        { stackName := "eksctl-c-nodegroup-n", stackStatus := "CREATE_COMPLETE",
          tags := [{ key := NodeGroupNameTag, value := "n1" }] } = "n1"
    ∧ GetNodeGroupName
        { stackName := "eksctl-legacy-nodegroup-0", stackStatus := "CREATE_COMPLETE",
          tags := [] } = "legacy-nodegroup-0" :=
  ⟨(getNodeGroupName_resolution
      { stackName := "eksctl-c-nodegroup-n", stackStatus := "CREATE_COMPLETE",
        tags := [{ key := NodeGroupNameTag, value := "n1" }] }
      { key := NodeGroupNameTag, value := "n1" }).1 (by decide) (by decide),
   (getNodeGroupName_resolution
      { stackName := "eksctl-legacy-nodegroup-0", stackStatus := "CREATE_COMPLETE",
        tags := [] }
      { key := NodeGroupNameTag, value := "n1" }).2.1 rfl (by decide)⟩

/-! ## Claim C6 -/

/-- C6: when the owning cluster stack cannot be found and the cluster is
configured for IPv6 networking, `createManagedNodeGroupTask` returns the
configuration-conflict error synchronously, before any resource-set
construction or stack submission. -/
theorem createManagedNodeGroupTask_ipv6Unowned_conflict (env : CreateMNGEnv)
    (h : env.describeClusterStack = .ok none) :
    (createManagedNodeGroupTask env true).1 = .error ipv6ConflictMessage
    ∧ MNGAction.buildResourceSet ∉ (createManagedNodeGroupTask env true).2
    ∧ MNGAction.createStack ∉ (createManagedNodeGroupTask env true).2 := by
  rw [createManagedNodeGroupTask, h]
  refine ⟨rfl, ?_, ?_⟩
  · show MNGAction.buildResourceSet ∉ [MNGAction.describeClusterStack]
    decide
  · show MNGAction.createStack ∉ [MNGAction.describeClusterStack]
    decide

/-- C6 witness at a concrete environment. -/
theorem createManagedNodeGroupTask_ipv6Unowned_conflict_witness :
    (createManagedNodeGroupTask ⟨.ok none, none, none⟩ true).1
        = .error ipv6ConflictMessage
    ∧ MNGAction.buildResourceSet ∉ (createManagedNodeGroupTask ⟨.ok none, none, none⟩ true).2
    ∧ MNGAction.createStack ∉ (createManagedNodeGroupTask ⟨.ok none, none, none⟩ true).2 :=
  createManagedNodeGroupTask_ipv6Unowned_conflict ⟨.ok none, none, none⟩ rfl

/-! ## Claim C7 -/

/-- C7: on a successful describe-all query, `DescribeNodeGroupStacks` succeeds
and keeps exactly the stacks that are neither delete-complete nor
delete-failed (the latter excluded without an error) and whose node-group name
resolves to a non-empty value. -/
theorem describeNodeGroupStacks_filter (l : List Stack) (s : Stack) :
    ∃ kept, DescribeNodeGroupStacks ⟨.ok l⟩ = .ok kept
    ∧ (s ∈ kept ↔ s ∈ l ∧ s.stackStatus ≠ StackStatusDeleteComplete ∧
        s.stackStatus ≠ StackStatusDeleteFailed ∧ GetNodeGroupName s ≠ "") := by
  by_cases hl : l.isEmpty = true
  · have hnil : l = [] := List.isEmpty_iff.mp hl
    subst hnil
    exact ⟨[], rfl, by simp⟩
  · refine ⟨filterNodeGroupStacks l, ?_, mem_filterNodeGroupStacks s l⟩
    rw [DescribeNodeGroupStacks]
    simp [hl]

/-! ## Claim C8 -/

/-- A managed node-group stack used in the C8 counterexample. -/
def stackC8 : Stack :=
  { stackName := "eksctl-c-nodegroup-mng"
    stackStatus := "CREATE_COMPLETE"
    tags := [{ key := NodeGroupNameTag, value := "mng" },
             { key := NodeGroupTypeTag, value := NodeGroupTypeManaged }] }

/-- C8 counterexample: when its `DescribeNodegroup` call fails,
`getManagedNodeGroupAutoScalingGroupName` returns a success result (the empty
name with a nil error) — the external-service failure is discarded, refuting
"such failures are never discarded by returning a success result". -/
theorem managedASGName_swallowsDescribeError_cex :
    getManagedNodeGroupAutoScalingGroupName
        ⟨.error "eks: service unavailable", .ok "physical-id"⟩ stackC8 = .ok "" :=
  rfl

/-- C8 (amended): the propagation task wraps its describe-node-group and
tagging-API failures with operation context (the operation and the node-group
name) and returns them to its caller; `getManagedNodeGroupAutoScalingGroupName`
however swallows its describe-node-group failure, logging a warning and
returning the empty name with a nil error. -/
theorem nodeGroupOperation_errorWrapping (ngName cause : String)
    (ngTags : List (String × String)) (asgs : List String) (c : Option String)
    (r : Except String String) (s : Stack) :
    (propagateManagedNodeGroupTagsToASGTask none ngName ngTags
        ⟨.error cause, c⟩).syncResult = .error (describeWrapMessage ngName cause)
    ∧ (propagateManagedNodeGroupTagsToASGTask none ngName ngTags
        ⟨.ok (some asgs), some cause⟩).syncResult = .error (tagWrapMessage ngName cause)
    ∧ getManagedNodeGroupAutoScalingGroupName ⟨.error cause, r⟩ s = .ok "" :=
  ⟨rfl, rfl, rfl⟩

/-! ## Claims C1-C3 (spec-modelled propagation operation) -/

/-- 51 distinct tags: one over the per-resource quota. -/
def tags51 : List (String × String) :=
  (List.range 51).map fun i => ("tag-key-" ++ toString i, "tag-value-" ++ toString i)

/-- The 30 distinct tags of the chunking scenario. -/
def tags30 : List (String × String) :=
  (List.range 30).map fun i => ("tag-key-" ++ toString i, "tag-value-" ++ toString i)

/-- C1: an over-quota tag map makes the propagation operation deliver an
error containing "maximum amount for asg" on the result channel, with zero
network calls issued (in particular neither a describe-node-group nor any
tagging call). -/
theorem propagateTags_overQuota_channelError (tags : List (String × String))
    (asgNames : List String) (api : Nat → Option String)
    (h : MaximumTagNumber < tags.length) :
    (PropagateManagedNodeGroupTagsToASG false tags asgNames api).delivered
        = .fail quotaErrorMessage
    ∧ containsSubstr quotaErrorMessage "maximum amount for asg" = true
    ∧ (PropagateManagedNodeGroupTagsToASG false tags asgNames api).calls = [] := by
  rw [PropagateManagedNodeGroupTagsToASG, if_neg (by simp), if_pos h]
  exact ⟨rfl, by decide, rfl⟩

/-- C1 witness: 51 tags exceed the quota of 50; the error lands on the
channel and no call is issued. -/
theorem propagateTags_overQuota_channelError_witness :
    MaximumTagNumber < tags51.length
    ∧ (PropagateManagedNodeGroupTagsToASG false tags51 ["asg-test-name"]
        (fun _ => none)).delivered = .fail quotaErrorMessage
    ∧ (PropagateManagedNodeGroupTagsToASG false tags51 ["asg-test-name"]
        (fun _ => none)).calls = [] :=
  ⟨by decide,
   (propagateTags_overQuota_channelError tags51 ["asg-test-name"] (fun _ => none)
      (by decide)).1,
   (propagateTags_overQuota_channelError tags51 ["asg-test-name"] (fun _ => none)
      (by decide)).2.2⟩

/-- C2: within quota, the (ASG × tag) records are partitioned into batches of
at most `MaximumCreatedTagNumberPerCall`, one tagging call per batch whose
in-order concatenation is exactly the record list; nil is delivered on
success; and 30 tags on one ASG issue exactly two calls of sizes 25 and 5. -/
theorem propagateTags_batching (asgNames : List String)
    (tags : List (String × String)) (h : tags.length ≤ MaximumTagNumber) :
    (PropagateManagedNodeGroupTagsToASG false tags asgNames (fun _ => none)).delivered
        = .nil
    ∧ (PropagateManagedNodeGroupTagsToASG false tags asgNames
        (fun _ => none)).calls.flatten = buildASGTagRecords asgNames tags
    ∧ (∀ c ∈ (PropagateManagedNodeGroupTagsToASG false tags asgNames
        (fun _ => none)).calls, c.length ≤ MaximumCreatedTagNumberPerCall)
    ∧ (PropagateManagedNodeGroupTagsToASG false tags30 ["asg-test-name"]
        (fun _ => none)).calls.map List.length = [25, 5]
    ∧ (PropagateManagedNodeGroupTagsToASG false tags30 ["asg-test-name"]
        (fun _ => none)).delivered = .nil := by
  have hkey : PropagateManagedNodeGroupTagsToASG false tags asgNames (fun _ => none)
      = { syncResult := none, delivered := .nil,
          calls := chunkTagRecords MaximumCreatedTagNumberPerCall
            (buildASGTagRecords asgNames tags) } := by
    rw [PropagateManagedNodeGroupTagsToASG, if_neg (by simp),
      if_neg (Nat.not_lt.mpr h)]
    dsimp only
    rw [submitBatches_success]
  refine ⟨by rw [hkey], ?_, ?_, by rfl, by rfl⟩
  · rw [hkey]
    exact chunkGo_flatten MaximumCreatedTagNumberPerCall (by decide) _ _ (le_refl _)
  · rw [hkey]
    intro c hc
    exact chunkGo_sizes MaximumCreatedTagNumberPerCall _ _ _ hc

/-- C2 witness: the 30-tag scenario satisfies the quota hypothesis and the
general conclusions hold there. -/
theorem propagateTags_batching_witness :
    tags30.length ≤ MaximumTagNumber
    ∧ (PropagateManagedNodeGroupTagsToASG false tags30 ["asg-test-name"]
        (fun _ => none)).calls.flatten = buildASGTagRecords ["asg-test-name"] tags30
    ∧ (PropagateManagedNodeGroupTagsToASG false tags30 ["asg-test-name"]
        (fun _ => none)).calls.map List.length = [25, 5] :=
  ⟨by decide,
   (propagateTags_batching ["asg-test-name"] tags30 (by decide)).2.1,
   (propagateTags_batching ["asg-test-name"] tags30 (by decide)).2.2.2.1⟩

/-- C3: the propagation operation always returns nil synchronously — its
outcome, failure or success, is observable only as the single value written
to the result channel — and when propagation is disabled for the node group
a nil result is delivered immediately, with no network calls. -/
theorem propagateTags_asyncContract (disabled : Bool)
    (tags : List (String × String)) (asgNames : List String)
    (api : Nat → Option String) :
    (PropagateManagedNodeGroupTagsToASG disabled tags asgNames api).syncResult = none
    ∧ (disabled = true →
        (PropagateManagedNodeGroupTagsToASG disabled tags asgNames api).delivered = .nil
        ∧ (PropagateManagedNodeGroupTagsToASG disabled tags asgNames api).calls = []) := by
  constructor
  · cases disabled
    · by_cases hq : MaximumTagNumber < tags.length
      · rw [PropagateManagedNodeGroupTagsToASG, if_neg (by simp), if_pos hq]
      · rw [PropagateManagedNodeGroupTagsToASG, if_neg (by simp), if_neg hq]
    · rfl
  · intro hd
    subst hd
    exact ⟨rfl, rfl⟩

/-- C3 witness: a disabled node group returns nil synchronously and delivers
nil immediately with no calls. -/
theorem propagateTags_asyncContract_witness :
    (PropagateManagedNodeGroupTagsToASG true [("k1", "v1")] ["asg-test-name"]
        (fun _ => none)).syncResult = none
    ∧ (PropagateManagedNodeGroupTagsToASG true [("k1", "v1")] ["asg-test-name"]
        (fun _ => none)).delivered = .nil
    ∧ (PropagateManagedNodeGroupTagsToASG true [("k1", "v1")] ["asg-test-name"]
        (fun _ => none)).calls = [] :=
  ⟨(propagateTags_asyncContract true [("k1", "v1")] ["asg-test-name"]
      (fun _ => none)).1,
   ((propagateTags_asyncContract true [("k1", "v1")] ["asg-test-name"]
      (fun _ => none)).2 rfl).1,
   ((propagateTags_asyncContract true [("k1", "v1")] ["asg-test-name"]
      (fun _ => none)).2 rfl).2⟩

/-! ## Claim C9 (spec-modelled UpdateStack) -/

/-- C9: a change set reaching the failed terminal state with a status reason
containing the no-op substring makes `UpdateStack` return nil, with no
execute-change-set call issued and no error raised. -/
theorem updateStack_noChanges_nil (s : Stack) (name : String) (w : Bool)
    (env : UpdateStackEnv) (h1 : env.createChangeSet = none)
    (h2 : env.changeSetStatus = ChangeSetStatusFailed)
    (h3 : containsSubstr env.changeSetStatusReason noChangesNeedle = true) :
    (UpdateStack ⟨some s, name, w⟩ env).1 = .ok ()
    ∧ CFNCall.executeChangeSet ∉ (UpdateStack ⟨some s, name, w⟩ env).2 := by
  have hkey : UpdateStack ⟨some s, name, w⟩ env
      = (.ok (), [CFNCall.createChangeSet, CFNCall.waitChangeSet,
          CFNCall.describeChangeSet]) := by
    rw [UpdateStack, resolveUpdateTarget]
    dsimp only
    rw [h1]
    dsimp only
    rw [h2, if_pos rfl, h3, if_pos rfl]
    rfl
  rw [hkey]
  exact ⟨rfl, by decide⟩

/-- The environment of the no-op update scenario from the test suite. -/
def envC9 : UpdateStackEnv :=
  { describeStack := .ok none
    createChangeSet := none
    changeSetStatus := ChangeSetStatusFailed
    changeSetStatusReason := "The submitted information didn" ++ apoStr ++
      "t contain changes"
    executeChangeSet := none
    waitUpdate := none }

/-- The stack of the no-op update scenario. -/
def stackC9 : Stack :=
  { stackName := "eksctl-stack", stackStatus := "CREATE_COMPLETE", tags := [] }

/-- C9 witness: the test scenario's status reason contains the no-op
substring and the update returns nil without executing. -/
theorem updateStack_noChanges_nil_witness :
    containsSubstr envC9.changeSetStatusReason noChangesNeedle = true
    ∧ (UpdateStack ⟨some stackC9, "eksctl-stack", true⟩ envC9).1 = .ok ()
    ∧ CFNCall.executeChangeSet ∉ (UpdateStack ⟨some stackC9, "eksctl-stack", true⟩
        envC9).2 :=
  ⟨by decide,
   (updateStack_noChanges_nil stackC9 "eksctl-stack" true envC9
      rfl rfl (by decide)).1,
   (updateStack_noChanges_nil stackC9 "eksctl-stack" true envC9
      rfl rfl (by decide)).2⟩

end EksctlCfnManager
